import Mathlib

/-!
Shallow embedding of the dashboard script `src/app.py`.

The script loads a tabular dataset (`df`), derives two label columns
(lines 16-17), renders four KPI metrics from `df` (lines 23-31), builds
three selectbox option lists from `df` (lines 36-40), filters `df` by the
three selections (lines 43-49), recomputes the label columns on the
filtered frame (lines 52-53), computes grouped fraud rates (lines 112 and
119) and a correlation matrix over the numeric columns of the filtered
frame (lines 175-176).

Rows are modelled as a structure of the columns the script touches;
nullable (categorical) columns are `Option String`, numeric columns are
`ℚ`.  A pandas `NaN` aggregate is modelled as `Option.none`.  A Pearson
correlation value r is irrational in general, so a correlation entry is
stored in the exact injective encoding sign(r) * r^2 ∈ ℚ (the encoding of
the value 1.0 is `some 1`, of `NaN` is `none`): two entries are equal in
this encoding iff the real correlation values are equal.
-/

/-- One row of the merged bank/bureau dataframe, restricted to the columns
the script references.  The two label columns exist because lines 16-17
and 52-53 of the script assign them onto the frame. -/
structure Record where
  application_id : Nat
  region : Option String
  employment_type : Option String
  risk_grade : Option String
  gender : Option String
  marital_status : Option String
  application_channel : Option String
  device_type : Option String
  target : ℚ
  fraud_flag : ℚ
  recent_delinquency_flag : ℚ
  monthly_income : ℚ
  utilization_ratio : ℚ
  payment_history_on_time_ratio : ℚ
  target_label : Option String
  delinquency_label : Option String
deriving DecidableEq, Repr

/-- The three sidebar selections (lines 38-40); each selectbox yields a
string, `"All"` being the sentinel. -/
structure Selection where
  region : String
  employment : String
  risk : String
deriving DecidableEq, Repr

/-- `df['target'].map({0: 'Approved', 1: 'Rejected/Default'})` on one cell
(line 16); pandas `.map` sends a key outside the dict to `NaN`. -/
def mapTarget (q : ℚ) : Option String :=
  if q = 0 then some "Approved" else if q = 1 then some "Rejected/Default" else none

/-- `df['recent_delinquency_flag'].map({0: 'No', 1: 'Yes'})` on one cell
(line 17). -/
def mapDelinq (q : ℚ) : Option String :=
  if q = 0 then some "No" else if q = 1 then some "Yes" else none

/-- Assignment of the two derived label columns onto a row (lines 16-17,
repeated on the filtered frame at lines 52-53). -/
def relabel (r : Record) : Record :=
  { r with target_label := mapTarget r.target,
           delinquency_label := mapDelinq r.recent_delinquency_flag }

/-- The filter block, lines 43-49: one equality filter per selection that
is not the sentinel `"All"`, applied in sequence (region, employment,
risk).  In pandas `NaN == v` is false, hence `Option.some` equality. -/
def applyFilters (d : List Record) (s : Selection) : List Record :=
  let d1 := if s.region = "All" then d
            else d.filter (fun r => decide (r.region = some s.region))
  let d2 := if s.employment = "All" then d1
            else d1.filter (fun r => decide (r.employment_type = some s.employment))
  if s.risk = "All" then d2
  else d2.filter (fun r => decide (r.risk_grade = some s.risk))

/-- pandas `Series.mean`: `NaN` (here `none`) on an empty column. -/
def meanQ (xs : List ℚ) : Option ℚ :=
  if xs.length = 0 then none else some (xs.sum / xs.length)

/-- The four KPI values of lines 24-31. -/
structure Metrics where
  approval_rate : Option ℚ
  fraud_rate : Option ℚ
  avg_income : Option ℚ
  avg_utilization : Option ℚ
deriving DecidableEq, Repr

/-- KPI block, lines 24-31: approval rate `1 - df['target'].mean()`, fraud
rate `df['fraud_flag'].mean()`, average income `df['monthly_income'].mean()`,
average utilization `df['utilization_ratio'].mean()`. -/
def computeSummaryMetrics (d : List Record) : Metrics :=
  { approval_rate := (meanQ (d.map Record.target)).map (fun m => 1 - m)
    fraud_rate := meanQ (d.map Record.fraud_flag)
    avg_income := meanQ (d.map Record.monthly_income)
    avg_utilization := meanQ (d.map Record.utilization_ratio) }

/-- One selectbox option list, lines 38-40:
`["All"] + sorted(df[col].dropna().unique().tolist())`. -/
def sortedOptions (get : Record → Option String) (d : List Record) : List String :=
  "All" :: List.insertionSort (· ≤ ·) (d.filterMap get).dedup

/-- `filtered_df.groupby(col)["fraud_flag"].mean()` (lines 112 and 119):
group keys are the distinct non-null values of the grouping column, in
sorted order (pandas `groupby` drops null keys and sorts); each group's
value is the mean of the rate column over that group's rows. -/
def groupedRate (get : Record → Option String) (rate : Record → ℚ)
    (d : List Record) : List (String × ℚ) :=
  (List.insertionSort (· ≤ ·) (d.filterMap get).dedup).map fun k =>
    let rows := d.filter (fun r => decide (get r = some k))
    (k, (rows.map rate).sum / rows.length)

/-- Column sum `Σ f`. -/
def sumF (d : List Record) (f : Record → ℚ) : ℚ := (d.map f).sum

/-- Pointwise product sum `Σ f·g`. -/
def sumFG (d : List Record) (f g : Record → ℚ) : ℚ :=
  (d.map fun r => f r * g r).sum

/-- `n·Σf² − (Σf)²`, i.e. n² times the variance of column `f`; the
denominator datum of a Pearson entry. -/
def varN (d : List Record) (f : Record → ℚ) : ℚ :=
  (d.length : ℚ) * sumFG d f f - sumF d f * sumF d f

/-- `n·Σfg − (Σf)(Σg)`, n² times the covariance; the numerator datum of a
Pearson entry. -/
def covN (d : List Record) (f g : Record → ℚ) : ℚ :=
  (d.length : ℚ) * sumFG d f g - sumF d f * sumF d g

/-- One entry of `filtered_df.select_dtypes(...).corr()` (line 176), in the
exact encoding sign(r)·r² of the Pearson value
r = covN / √(varN·varN'): `none` models the `NaN` pandas produces when a
column has zero variance (constant column, or fewer than 2 rows). -/
def corrEntry (d : List Record) (f g : Record → ℚ) : Option ℚ :=
  if varN d f * varN d g = 0 then none
  else if covN d f g < 0 then
    some (-(covN d f g * covN d f g) / (varN d f * varN d g))
  else
    some (covN d f g * covN d f g / (varN d f * varN d g))

/-- The numeric (`float64`/`int64`) columns selected at line 175, as
accessors. -/
def numericGetters : List (Record → ℚ) :=
  [fun r => (r.application_id : ℚ),
   Record.target,
   Record.fraud_flag,
   Record.recent_delinquency_flag,
   Record.monthly_income,
   Record.utilization_ratio,
   Record.payment_history_on_time_ratio]

/-- Everything one render pass of the script computes from the loaded
dataframe and the sidebar selection. -/
structure PageOutput where
  metrics : Metrics
  regionOptions : List String
  employmentOptions : List String
  riskOptions : List String
  filteredDf : List Record
  fraudByChannel : List (String × ℚ)
  fraudByDevice : List (String × ℚ)
  corr : Fin numericGetters.length → Fin numericGetters.length → Option ℚ

/-- One render pass of `src/app.py`, in the script's order: label the full
frame (lines 16-17), KPI metrics from the full frame (lines 24-31),
selectbox options from the full frame (lines 38-40), filter (lines 43-49),
relabel the filtered frame (lines 52-53), grouped fraud rates (lines 112,
119) and the correlation matrix (lines 175-176) from the filtered frame. -/
def renderPage (d : List Record) (s : Selection) : PageOutput :=
  let ldf := d.map relabel
  let fdf := (applyFilters ldf s).map relabel
  { metrics := computeSummaryMetrics ldf
    regionOptions := sortedOptions Record.region ldf
    employmentOptions := sortedOptions Record.employment_type ldf
    riskOptions := sortedOptions Record.risk_grade ldf
    filteredDf := fdf
    fraudByChannel := groupedRate Record.application_channel Record.fraud_flag fdf
    fraudByDevice := groupedRate Record.device_type Record.fraud_flag fdf
    corr := fun i j => corrEntry fdf (numericGetters.get i) (numericGetters.get j) }

/-- A row with every categorical cell null and every numeric cell 0; the
concrete rows below are built from it. -/
def baseRecord : Record :=
  { application_id := 0, region := none, employment_type := none,
    risk_grade := none, gender := none, marital_status := none,
    application_channel := none, device_type := none,
    target := 0, fraud_flag := 0, recent_delinquency_flag := 0,
    monthly_income := 0, utilization_ratio := 0,
    payment_history_on_time_ratio := 0,
    target_label := none, delinquency_label := none }

/-- The sentinel-only selection. -/
def selAll : Selection := { region := "All", employment := "All", risk := "All" }

/-- The Boolean a record must pass for one filter dimension: either the
selection is the sentinel or the cell equals the selected value. -/
def keep1 (sel : String) (cell : Option String) : Bool :=
  decide (sel = "All") || decide (cell = some sel)

/-- The conjunction of the three dimension checks of lines 44-49. -/
def keepPred (s : Selection) (r : Record) : Bool :=
  keep1 s.region r.region && keep1 s.employment r.employment_type &&
    keep1 s.risk r.risk_grade

/-- The spec's wording of the filter contract, as a proposition: every
dimension whose selected value is not the sentinel constrains the record's
field to equal it, and the constraints are conjoined. -/
def specKeeps (s : Selection) (r : Record) : Prop :=
  (s.region ≠ "All" → r.region = some s.region) ∧
  (s.employment ≠ "All" → r.employment_type = some s.employment) ∧
  (s.risk ≠ "All" → r.risk_grade = some s.risk)

/-- The spec's wording of one selectbox contract: the option list is
`"All"` followed by a sorted duplicate-free tail holding exactly the
non-null values of the column's cells. -/
def optionsSpec (opts : List String) (cells : List (Option String)) : Prop :=
  opts = "All" :: opts.tail ∧ opts.tail.Sorted (· ≤ ·) ∧ opts.tail.Nodup ∧
    ∀ x : String, x ∈ opts.tail ↔ some x ∈ cells

/-- Witness dataset refuting C1: two rows, one per region, with different
`target` values, filtered to one region. -/
def dC1 : List Record :=
  [{ baseRecord with application_id := 1, region := some "North", target := 0 },
   { baseRecord with application_id := 2, region := some "South", target := 1 }]

/-- The region-only selection used against `dC1`. -/
def sC1 : Selection := { selAll with region := "North" }

/-- A two-row dataset in which every numeric column is constant. -/
def dC4 : List Record := [baseRecord, baseRecord]

/-- A two-row dataset whose first numeric column is not constant. -/
def dC4w : List Record :=
  [{ baseRecord with application_id := 1 }, { baseRecord with application_id := 2 }]

/-- The spec's grouped-rate scenario: `fraud_flag = [0,1,0,0]` over
channels Online, Online, Branch, Branch. -/
def dC5 : List Record :=
  [{ baseRecord with application_channel := some "Online", fraud_flag := 0 },
   { baseRecord with application_channel := some "Online", fraud_flag := 1 },
   { baseRecord with application_channel := some "Branch", fraud_flag := 0 },
   { baseRecord with application_channel := some "Branch", fraud_flag := 0 }]

lemma applyFilters_eq_filter (d : List Record) (s : Selection) :
    applyFilters d s = d.filter (keepPred s) := by
  unfold applyFilters keepPred keep1
  by_cases h1 : s.region = "All" <;> by_cases h2 : s.employment = "All" <;>
    by_cases h3 : s.risk = "All" <;>
    simp [h1, h2, h3, List.filter_filter] <;>
    exact List.filter_congr fun a _ => by
      simp [Bool.and_comm, Bool.and_left_comm, Bool.and_assoc]

lemma keep1_eq_true_iff (sel : String) (cell : Option String) :
    keep1 sel cell = true ↔ (sel ≠ "All" → cell = some sel) := by
  simp [keep1, or_iff_not_imp_left]

lemma mem_applyFilters (d : List Record) (s : Selection) (r : Record) :
    r ∈ applyFilters d s ↔ r ∈ d ∧ specKeeps s r := by
  rw [applyFilters_eq_filter, List.mem_filter]
  unfold keepPred specKeeps
  simp [keep1_eq_true_iff]
  tauto

/-- C2: a record is retained by `applyFilters` iff it is in the input and,
for each dimension whose selection is not the sentinel `"All"`, its field
equals the selected value (sentinel dimensions impose no constraint, the
constraints compose by AND); the result is a sublist, hence a subset, of
the input. -/
theorem c2_applyFilters_spec (d : List Record) (s : Selection) :
    (∀ r : Record, r ∈ applyFilters d s ↔ r ∈ d ∧ specKeeps s r) ∧
      (applyFilters d s).Sublist d := by
  refine ⟨mem_applyFilters d s, ?_⟩
  rw [applyFilters_eq_filter]
  exact List.filter_sublist d

/-- C9: filtering an already-filtered frame with the same selection changes
nothing. -/
theorem c9_applyFilters_idem (d : List Record) (s : Selection) :
    applyFilters (applyFilters d s) s = applyFilters d s := by
  simp [applyFilters_eq_filter, List.filter_filter]

/-- C8: on the three-row dataset with regions North, South, North and the
selection region = "North" (others at the sentinel), the filter returns
exactly the two North rows in their original relative order. -/
theorem c8_north_scenario :
    applyFilters
      [{ baseRecord with application_id := 1, region := some "North" },
       { baseRecord with application_id := 2, region := some "South" },
       { baseRecord with application_id := 3, region := some "North" }]
      { selAll with region := "North" } =
      [{ baseRecord with application_id := 1, region := some "North" },
       { baseRecord with application_id := 3, region := some "North" }] := by
  decide

lemma relabel_relabel (r : Record) : relabel (relabel r) = relabel r := rfl

lemma map_map_relabel {α : Type} (f : Record → α)
    (h : ∀ r, f (relabel r) = f r) (d : List Record) :
    (d.map relabel).map f = d.map f := by
  simp [List.map_map, Function.comp_def, h]

lemma computeSummaryMetrics_map_relabel (d : List Record) :
    computeSummaryMetrics (d.map relabel) = computeSummaryMetrics d := by
  unfold computeSummaryMetrics
  rw [map_map_relabel Record.target (fun r => rfl),
      map_map_relabel Record.fraud_flag (fun r => rfl),
      map_map_relabel Record.monthly_income (fun r => rfl),
      map_map_relabel Record.utilization_ratio (fun r => rfl)]

lemma applyFilters_map_relabel (d : List Record) (s : Selection) :
    applyFilters (d.map relabel) s = (applyFilters d s).map relabel := by
  rw [applyFilters_eq_filter, applyFilters_eq_filter, List.filter_map]
  congr 1

/-- C6: on the empty dataset every KPI mean is undefined, so the metrics
record comes back with all four fields at the "no data" value rather than
an error. -/
theorem c6_empty_metrics :
    computeSummaryMetrics [] =
      { approval_rate := none, fraud_rate := none,
        avg_income := none, avg_utilization := none } := rfl

/-- C10: the four displayed KPI values do not depend on the filter
selection: the script computes them from the full dataframe before any
filter is applied. -/
theorem c10_metrics_filter_independent (d : List Record) (s₁ s₂ : Selection) :
    (renderPage d s₁).metrics = (renderPage d s₂).metrics := rfl

/-- C1 fails on the code: the displayed approval rate (computed from the
full dataframe at lines 24-31, before the filter block) differs from
`1 − mean(target)` over the filtered dataframe. -/
theorem c1_kpi_not_over_filtered :
    (renderPage dC1 sC1).metrics.approval_rate ≠
      (computeSummaryMetrics (renderPage dC1 sC1).filteredDf).approval_rate := by
  have hL : (renderPage dC1 sC1).metrics = computeSummaryMetrics dC1 :=
    computeSummaryMetrics_map_relabel dC1
  have hF : (renderPage dC1 sC1).filteredDf =
      [relabel { baseRecord with application_id := 1, region := some "North" }] := by
    decide
  rw [hL, hF]
  simp [computeSummaryMetrics, meanQ, dC1, relabel, baseRecord, mapTarget, mapDelinq]

/-- C1 (amended): the displayed KPI metrics equal `computeSummaryMetrics`
of the full (unfiltered) dataset — approval rate `1 − mean(target)`, fraud
rate `mean(fraud_flag)`, average income `mean(monthly_income)`, average
utilization `mean(utilization_ratio)` over the whole dataframe — for every
dataset and filter selection. -/
theorem c1_kpi_full_dataset (d : List Record) (s : Selection) :
    (renderPage d s).metrics = computeSummaryMetrics d := by
  show computeSummaryMetrics (d.map relabel) = computeSummaryMetrics d
  exact computeSummaryMetrics_map_relabel d

/-- C7: the filtered frame the page renders is exactly the filtered rows
relabelled by the same pure label functions used on the full frame: each
retained record carries `target_label = mapTarget target` and
`delinquency_label = mapDelinq recent_delinquency_flag`, and is literally a
member of the labelled full frame — labelling commutes with filtering. -/
theorem c7_labels_commute (d : List Record) (s : Selection) :
    (renderPage d s).filteredDf = (applyFilters d s).map relabel ∧
      ∀ r ∈ (renderPage d s).filteredDf,
        r.target_label = mapTarget r.target ∧
        r.delinquency_label = mapDelinq r.recent_delinquency_flag ∧
        r ∈ d.map relabel := by
  have h : (renderPage d s).filteredDf = (applyFilters d s).map relabel := by
    show (applyFilters (d.map relabel) s).map relabel = _
    rw [applyFilters_map_relabel, List.map_map]
    simp [Function.comp_def, relabel_relabel]
  refine ⟨h, ?_⟩
  intro r hr
  rw [h] at hr
  obtain ⟨r₀, hr₀, rfl⟩ := List.mem_map.mp hr
  have hmem : r₀ ∈ d := ((mem_applyFilters d s r₀).mp hr₀).1
  exact ⟨rfl, rfl, List.mem_map_of_mem relabel hmem⟩

lemma sortedOptions_spec (get : Record → Option String) (d : List Record) :
    optionsSpec (sortedOptions get d) (d.map get) := by
  refine ⟨rfl, ?_, ?_, ?_⟩
  · simp only [sortedOptions, List.tail_cons]
    exact List.sorted_insertionSort _ _
  · simp only [sortedOptions, List.tail_cons]
    exact ((List.perm_insertionSort _ _).nodup_iff).mpr (List.nodup_dedup _)
  · intro x
    simp only [sortedOptions, List.tail_cons]
    rw [(List.perm_insertionSort _ _).mem_iff, List.mem_dedup, List.mem_filterMap]
    simp [List.mem_map, eq_comm]

/-- C3: each of the three selectboxes offers `"All"` followed by the
sorted distinct non-null values of its column over the full (unfiltered)
dataset, and the option lists are the same whatever the current filter
selection is. -/
theorem c3_options (d : List Record) (s : Selection) :
    optionsSpec (renderPage d s).regionOptions (d.map Record.region) ∧
      optionsSpec (renderPage d s).employmentOptions (d.map Record.employment_type) ∧
      optionsSpec (renderPage d s).riskOptions (d.map Record.risk_grade) ∧
      ∀ s' : Selection,
        (renderPage d s').regionOptions = (renderPage d s).regionOptions ∧
        (renderPage d s').employmentOptions = (renderPage d s).employmentOptions ∧
        (renderPage d s').riskOptions = (renderPage d s).riskOptions := by
  have key : ∀ get : Record → Option String, (∀ r, get (relabel r) = get r) →
      optionsSpec (sortedOptions get (d.map relabel)) (d.map get) := by
    intro get hg
    have h := sortedOptions_spec get (d.map relabel)
    rwa [map_map_relabel get hg d] at h
  exact ⟨key Record.region (fun r => rfl),
         key Record.employment_type (fun r => rfl),
         key Record.risk_grade (fun r => rfl),
         fun s' => ⟨rfl, rfl, rfl⟩⟩

lemma mean_mem_unit (xs : List ℚ) (hne : xs ≠ [])
    (h : ∀ x ∈ xs, x = 0 ∨ x = 1) :
    0 ≤ xs.sum / (xs.length : ℚ) ∧ xs.sum / (xs.length : ℚ) ≤ 1 := by
  have hlen : (0 : ℚ) < xs.length := by
    exact_mod_cast List.length_pos.mpr hne
  have h0 : ∀ x ∈ xs, (0 : ℚ) ≤ x := by
    intro x hx; rcases h x hx with h' | h' <;> simp [h']
  have h1 : ∀ x ∈ xs, x ≤ (1 : ℚ) := by
    intro x hx; rcases h x hx with h' | h' <;> simp [h']
  refine ⟨div_nonneg (List.sum_nonneg h0) hlen.le, ?_⟩
  rw [div_le_one hlen]
  calc xs.sum ≤ xs.length • (1 : ℚ) := List.sum_le_card_nsmul xs 1 h1
    _ = xs.length := by simp

/-- C5: when the rate column is 0/1-valued, every grouped rate lies in
[0, 1], and the group keys are exactly the distinct non-null values of the
grouping column present in the input (no empty group ever appears, so no
division by zero happens). -/
theorem c5_groupedRate (get : Record → Option String) (rate : Record → ℚ)
    (d : List Record) (h : ∀ r ∈ d, rate r = 0 ∨ rate r = 1) :
    (∀ p ∈ groupedRate get rate d, 0 ≤ p.2 ∧ p.2 ≤ 1) ∧
      ∀ k : String,
        k ∈ (groupedRate get rate d).map Prod.fst ↔ ∃ r ∈ d, get r = some k := by
  constructor
  · intro p hp
    simp only [groupedRate, List.mem_map] at hp
    obtain ⟨k, hk, rfl⟩ := hp
    rw [(List.perm_insertionSort _ _).mem_iff, List.mem_dedup,
      List.mem_filterMap] at hk
    obtain ⟨r, hr, hgr⟩ := hk
    have hrmem : r ∈ d.filter (fun r => decide (get r = some k)) :=
      List.mem_filter.mpr ⟨hr, by simp [hgr]⟩
    have hrne : (d.filter (fun r => decide (get r = some k))).map rate ≠ [] := by
      simp only [ne_eq, List.map_eq_nil_iff]
      exact fun hnil => by simp [hnil] at hrmem
    have hvals : ∀ x ∈ (d.filter (fun r => decide (get r = some k))).map rate,
        x = 0 ∨ x = 1 := by
      intro x hx
      obtain ⟨r', hr', rfl⟩ := List.mem_map.mp hx
      exact h r' (List.mem_of_mem_filter hr')
    have hb := mean_mem_unit _ hrne hvals
    simpa [List.length_map] using hb
  · intro k
    simp only [groupedRate, List.map_map, Function.comp_def, List.map_id']
    rw [(List.perm_insertionSort _ _).mem_iff, List.mem_dedup, List.mem_filterMap]

lemma list_sq_sum_le (xs : List ℚ) :
    xs.sum * xs.sum ≤ (xs.length : ℚ) * (xs.map fun x => x * x).sum := by
  induction xs with
  | nil => simp
  | cons a t ih =>
    have hQ : 0 ≤ (t.map fun x => x * x).sum := by
      refine List.sum_nonneg ?_
      intro x hx
      obtain ⟨y, hy, rfl⟩ := List.mem_map.mp hx
      exact mul_self_nonneg y
    simp only [List.sum_cons, List.map_cons, List.length_cons]
    push_cast
    rcases Nat.eq_zero_or_pos t.length with h0 | h0
    · obtain rfl : t = [] := List.length_eq_zero.mp h0
      simp
    · have hn : (0 : ℚ) < t.length := by exact_mod_cast h0
      nlinarith [ih, sq_nonneg ((t.length : ℚ) * a - t.sum), hn, hQ]

lemma varN_nonneg (d : List Record) (f : Record → ℚ) : 0 ≤ varN d f := by
  have h := list_sq_sum_le (d.map f)
  rw [List.length_map, List.map_map] at h
  unfold varN sumFG sumF
  have hc : (d.map fun r => f r * f r) = d.map ((fun x => x * x) ∘ f) := rfl
  rw [hc]
  linarith

lemma covN_self (d : List Record) (f : Record → ℚ) : covN d f f = varN d f := rfl

lemma corrEntry_symm (d : List Record) (f g : Record → ℚ) :
    corrEntry d f g = corrEntry d g f := by
  have hs : sumFG d f g = sumFG d g f := by
    unfold sumFG
    have hc : (d.map fun r => f r * g r) = d.map fun r => g r * f r := by
      simp [mul_comm]
    rw [hc]
  have hc : covN d f g = covN d g f := by
    unfold covN
    rw [hs, mul_comm (sumF d f) (sumF d g)]
  unfold corrEntry
  rw [hc, mul_comm (varN d f) (varN d g)]

lemma corrEntry_diag (d : List Record) (f : Record → ℚ) (h : varN d f ≠ 0) :
    corrEntry d f f = some 1 := by
  have hnz : varN d f * varN d f ≠ 0 := mul_ne_zero h h
  have hge : ¬ covN d f f < 0 := not_lt.mpr (covN_self d f ▸ varN_nonneg d f)
  unfold corrEntry
  rw [if_neg hnz, if_neg hge, covN_self, div_self hnz]

/-- C4 (amended): the correlation matrix of the filtered frame is symmetric
in every entry, and a diagonal entry equals 1.0 whenever its column has
nonzero variance over the filtered rows (`varN ≠ 0`); a constant column or
a frame with fewer than two rows yields an undefined (`NaN`) diagonal
entry instead, exactly as pandas does. -/
theorem c4_corr_symm_diag (d : List Record) (s : Selection)
    (i j : Fin numericGetters.length) :
    (renderPage d s).corr i j = (renderPage d s).corr j i ∧
      (varN (renderPage d s).filteredDf (numericGetters.get i) ≠ 0 →
        (renderPage d s).corr i i = some 1) :=
  ⟨corrEntry_symm _ _ _, fun h => corrEntry_diag _ _ h⟩

/-- C4 fails as stated: on a frame whose column has zero variance the
diagonal correlation entry is `NaN` (encoded `none`), not 1.0, exactly as
pandas computes it. -/
theorem c4_diag_nan :
    (renderPage dC4 selAll).corr ⟨0, by decide⟩ ⟨0, by decide⟩ ≠ some 1 := by
  have hf : (renderPage dC4 selAll).filteredDf =
      [relabel baseRecord, relabel baseRecord] := by decide
  have h : (renderPage dC4 selAll).corr ⟨0, by decide⟩ ⟨0, by decide⟩ = none := by
    show corrEntry (renderPage dC4 selAll).filteredDf
        (fun r => ((r.application_id : ℚ))) (fun r => ((r.application_id : ℚ))) = none
    rw [hf]
    have hv : varN [relabel baseRecord, relabel baseRecord]
        (fun r => ((r.application_id : ℚ))) = 0 := by
      norm_num [varN, sumFG, sumF, relabel, baseRecord]
    unfold corrEntry
    rw [hv]
    norm_num
  rw [h]
  simp

/-- Witness for the amended C4: a column with nonzero variance, whose
diagonal correlation entry the theorem evaluates to 1.0. -/
theorem c4_symm_diag_witness :
    varN (renderPage dC4w selAll).filteredDf (numericGetters.get ⟨0, by decide⟩) ≠ 0 ∧
      (renderPage dC4w selAll).corr ⟨0, by decide⟩ ⟨0, by decide⟩ = some 1 := by
  have hf : (renderPage dC4w selAll).filteredDf =
      [relabel { baseRecord with application_id := 1 },
       relabel { baseRecord with application_id := 2 }] := by decide
  have hv : varN (renderPage dC4w selAll).filteredDf
      (numericGetters.get ⟨0, by decide⟩) ≠ 0 := by
    show varN (renderPage dC4w selAll).filteredDf (fun r => ((r.application_id : ℚ))) ≠ 0
    rw [hf]
    norm_num [varN, sumFG, sumF, relabel, baseRecord]
  exact ⟨hv, (c4_corr_symm_diag dC4w selAll ⟨0, by decide⟩ ⟨0, by decide⟩).2 hv⟩

/-- Witness for C5: the 0/1-valuedness hypothesis holds on `dC5` and the
theorem's conclusion is obtained there. -/
theorem c5_groupedRate_witness :
    (∀ r ∈ dC5, Record.fraud_flag r = 0 ∨ Record.fraud_flag r = 1) ∧
      ((∀ p ∈ groupedRate Record.application_channel Record.fraud_flag dC5,
          0 ≤ p.2 ∧ p.2 ≤ 1) ∧
        ∀ k : String,
          k ∈ (groupedRate Record.application_channel Record.fraud_flag dC5).map
              Prod.fst ↔ ∃ r ∈ dC5, Record.application_channel r = some k) :=
  ⟨by decide,
   c5_groupedRate Record.application_channel Record.fraud_flag dC5 (by decide)⟩
